import Mathlib

/-!
Shallow embedding of `src/app2.py`, a Streamlit personal-training tracker.

The app has two layers:
* an identity resolver (`sb_login`, `get_user_profile`, the login form handler
  that fills `st.session_state.auth`), and
* a role-scoped data-access layer (`target_user_id` selection, the SQL queries
  over `avaliacoes`/`treinos`/`profiles`, the insert forms, and the dashboard
  delta computation `safe_delta` with its null-to-0.0 coercions).

Modelling conventions:
* SQL `numeric` values that may be NULL (and pandas NaN after `read_sql`)
  become `Option ℚ`; `pd.isna`/`is None` checks become `Option` matching.
* Dates become `Nat` ordinals; `ORDER BY data DESC` becomes a stable sort by
  the relation `b.data ≤ a.data` (`List.insertionSort`), `LIMIT n` becomes
  `List.take n`.
* The HTTP outcome of `httpx.post` in `sb_login` is an explicit sum
  (`HttpOutcome`): success payload, HTTP status error, or connection/timeout
  error, matching the two `except` arms of the source.
* Python's `f-string` one-decimal formatting in `safe_delta` is modelled by
  its numeric value `round1` (round to one decimal place).
-/

/-- Payload extracted from a successful Supabase token response:
`data["access_token"]` and `data["user"]["id"]` (app2.py lines 101-102). -/
structure LoginData where
  access_token : String
  user_id : String
deriving DecidableEq, Repr

/-- Outcome of the `httpx.post` call inside `sb_login` (app2.py lines 41-56):
either a 2xx response with a JSON payload, an HTTP status error
(`httpx.HTTPStatusError`, raised by `raise_for_status`), or any other
exception (connection failure, timeout after the 10-second bound). -/
inductive HttpOutcome where
  | ok (payload : LoginData)
  | httpStatusError (msg : String)
  | connectionError (msg : String)
deriving DecidableEq, Repr

/-- The `timeout=10` argument passed to `httpx.post` in `sb_login`
(app2.py line 42): a single attempt with a 10-second bound, no retries. -/
def sb_login_timeout_seconds : Nat := 10

/-- `sb_login` (app2.py lines 38-56): returns the parsed JSON payload on
success; on `HTTPStatusError` or any other exception it displays an error
message and returns `None`. -/
def sb_login (outcome : HttpOutcome) : Option LoginData :=
  match outcome with
  | .ok payload => some payload
  | .httpStatusError _ => none
  | .connectionError _ => none

/-- A row of the `profiles` table (`profiles(user_id, role, nome)`). -/
structure Profile where
  role : String
  nome : String
  user_id : String
deriving DecidableEq, Repr

/-- The default profile synthesized by `get_user_profile` when no row exists
or the fetch fails (app2.py lines 68 and 70). -/
def default_profile (user_id : String) : Profile :=
  ⟨"student", "Aluno", user_id⟩

/-- `get_user_profile` (app2.py lines 58-70): given the outcome of the REST
fetch of `profiles?user_id=eq.{id}` (an exception, or a list of rows),
returns the first row if the list is non-empty, and otherwise — empty list
or any exception — the default student profile. It never raises. -/
def get_user_profile (user_id : String) (fetch : Except String (List Profile)) :
    Profile :=
  match fetch with
  | .ok (p :: _) => p
  | .ok [] => default_profile user_id
  | .error _ => default_profile user_id

/-- The authenticated session context stored in `st.session_state.auth`
(app2.py lines 105-111). -/
structure AuthCtx where
  token : String
  user_id : String
  email : String
  role : String
  nome : String
deriving DecidableEq, Repr

/-- The login form handler (app2.py lines 98-113): calls `sb_login` once; if
it returns `None` the session auth slot is left untouched (the error was
already displayed inside `sb_login`); on success it resolves the profile and
fills `st.session_state.auth` in a single assignment. -/
def handle_login (auth : Option AuthCtx) (email : String)
    (outcome : HttpOutcome) (profileFetch : Except String (List Profile)) :
    Option AuthCtx :=
  match sb_login outcome with
  | none => auth
  | some d =>
      let profile := get_user_profile d.user_id profileFetch
      some ⟨d.access_token, d.user_id, email, profile.role, profile.nome⟩

/-- `is_teacher` (app2.py line 120). -/
def is_teacher (user : AuthCtx) : Bool :=
  user.role == "teacher"

/-- Whether the student-selection expander is rendered at all: it sits under
`if is_teacher:` (app2.py lines 133-134). -/
def student_selector_shown (user : AuthCtx) : Bool :=
  is_teacher user

/-- The query of the student-selection expander,
`SELECT * FROM profiles WHERE role = 'student'` (app2.py line 137). -/
def listStudents (profiles : List Profile) : List Profile :=
  profiles.filter (fun p => p.role == "student")

/-- `target_user_id` resolution (app2.py lines 130-144): defaults to the
caller's own `user_id`; only inside the teacher-only expander can a selected
student's id replace it (`sel = none` models "(Eu mesmo)" or no selection). -/
def target_user_id (user : AuthCtx) (sel : Option String) : String :=
  if is_teacher user then
    match sel with
    | some uid => uid
    | none => user.user_id
  else
    user.user_id

/-- A row of the `avaliacoes` table
(`avaliacoes(user_id, data, peso, altura, percentual_gordura,
percentual_massa_magra)`); the numeric columns are nullable. -/
structure Avaliacao where
  user_id : String
  data : Nat
  peso : Option ℚ
  altura : Option ℚ
  percentual_gordura : Option ℚ
  percentual_massa_magra : Option ℚ
deriving DecidableEq, Repr

/-- A row of the `treinos` table (`treinos(user_id, data, grupo_muscular,
exercicio, series, repeticoes, carga_kg, observacoes)`). -/
structure Treino where
  user_id : String
  data : Nat
  grupo_muscular : String
  exercicio : String
  series : Nat
  repeticoes : Nat
  carga_kg : ℚ
  observacoes : String
deriving DecidableEq, Repr

/-- The relational store: the three tables the app touches. -/
structure DB where
  profiles : List Profile
  avaliacoes : List Avaliacao
  treinos : List Treino
deriving DecidableEq, Repr

/-- Ordering relation of `ORDER BY data DESC` on `avaliacoes` rows. -/
def avDesc (a b : Avaliacao) : Prop :=
  b.data ≤ a.data

instance : DecidableRel avDesc :=
  fun a b => inferInstanceAs (Decidable (b.data ≤ a.data))

instance : IsTotal Avaliacao avDesc :=
  ⟨fun a b => Nat.le_total b.data a.data⟩

instance : IsTrans Avaliacao avDesc :=
  ⟨fun _ _ _ h1 h2 => Nat.le_trans h2 h1⟩

/-- Ordering relation of `ORDER BY data DESC` on `treinos` rows. -/
def trDesc (a b : Treino) : Prop :=
  b.data ≤ a.data

instance : DecidableRel trDesc :=
  fun a b => inferInstanceAs (Decidable (b.data ≤ a.data))

instance : IsTotal Treino trDesc :=
  ⟨fun a b => Nat.le_total b.data a.data⟩

instance : IsTrans Treino trDesc :=
  ⟨fun _ _ _ h1 h2 => Nat.le_trans h2 h1⟩

/-- The dashboard query `SELECT * FROM avaliacoes WHERE user_id = :uid
ORDER BY data DESC` (app2.py lines 161-165): unbounded, date-descending. -/
def getAssessments (db : DB) (uid : String) : List Avaliacao :=
  List.insertionSort avDesc (db.avaliacoes.filter (fun r => r.user_id == uid))

/-- The workout-history query `SELECT ... FROM treinos WHERE user_id = :uid
ORDER BY data DESC LIMIT n` (app2.py lines 240-245), with the limit as a
parameter. -/
def getWorkouts (db : DB) (uid : String) (limit : Nat) : List Treino :=
  (List.insertionSort trDesc (db.treinos.filter (fun r => r.user_id == uid))).take limit

/-- `INSERT INTO avaliacoes ...` (app2.py lines 270-273): a single atomic
parameterized statement appending one row. -/
def insertAvaliacao (db : DB) (r : Avaliacao) : DB :=
  { db with avaliacoes := db.avaliacoes ++ [r] }

/-- `INSERT INTO treinos ...` (app2.py lines 225-231): a single atomic
parameterized statement appending one row. -/
def insertTreino (db : DB) (r : Treino) : DB :=
  { db with treinos := db.treinos ++ [r] }

/-- The dashboard read issued by `tab_dash` for the resolved target user. -/
def dash_avaliacoes_query (db : DB) (user : AuthCtx) (sel : Option String) :
    List Avaliacao :=
  getAssessments db (target_user_id user sel)

/-- The workout-history read issued by `tab_treino` for the resolved target
user; the call site hardcodes `LIMIT 20` (app2.py line 244). -/
def treinos_history_query (db : DB) (user : AuthCtx) (sel : Option String) :
    List Treino :=
  getWorkouts db (target_user_id user sel) 20

/-- Fields of the new-workout form (app2.py lines 212-221); the `user_id`
is not a form field — the handler supplies the resolved target id. -/
structure TreinoForm where
  data : Nat
  grupo_muscular : String
  exercicio : String
  series : Nat
  repeticoes : Nat
  carga_kg : ℚ
  observacoes : String
deriving DecidableEq, Repr

/-- The `form_treino` submit handler (app2.py lines 223-231): inserts a
`treinos` row for `target_user_id`. -/
def form_treino_submit (db : DB) (user : AuthCtx) (sel : Option String)
    (f : TreinoForm) : DB :=
  insertTreino db
    ⟨target_user_id user sel, f.data, f.grupo_muscular, f.exercicio,
      f.series, f.repeticoes, f.carga_kg, f.observacoes⟩

/-- Fields of the new-assessment form (app2.py lines 261-266); all numeric
fields come from `number_input` and are therefore present (non-null). -/
structure AvalForm where
  data : Nat
  peso : ℚ
  altura : ℚ
  percentual_gordura : ℚ
  percentual_massa_magra : ℚ
deriving DecidableEq, Repr

/-- The `form_aval` submit handler (app2.py lines 268-273): inserts an
`avaliacoes` row for `target_user_id`. -/
def form_aval_submit (db : DB) (user : AuthCtx) (sel : Option String)
    (f : AvalForm) : DB :=
  insertAvaliacao db
    ⟨target_user_id user sel, f.data, some f.peso, some f.altura,
      some f.percentual_gordura, some f.percentual_massa_magra⟩

/-- Whether the new-assessment form exists on the page: the whole expander
sits under `if is_teacher:` (app2.py lines 258-259); non-teachers see only
an informational message. -/
def aval_form_available (user : AuthCtx) : Bool :=
  is_teacher user

/-- One interaction with `tab_aval` (app2.py lines 257-279): a submission can
reach the insert only when the form is available (caller is a teacher);
otherwise the store is untouched. -/
def tab_aval_step (db : DB) (user : AuthCtx) (sel : Option String)
    (submit : Option AvalForm) : DB :=
  if aval_form_available user then
    match submit with
    | some f => form_aval_submit db user sel f
    | none => db
  else
    db

/-- Numeric value rounded to one decimal place: the model of the Python
format `f"{x:.1f}"` used by `safe_delta` (app2.py line 176). -/
def round1 (x : ℚ) : ℚ :=
  ((round (x * 10) : ℤ) : ℚ) / 10

/-- `safe_delta` (app2.py lines 174-176): absent when the previous value is
`None`/NaN, otherwise the difference `curr - prev_val` displayed with one
decimal place. -/
def safe_delta (curr : ℚ) (prev_val : Option ℚ) : Option ℚ :=
  match prev_val with
  | none => none
  | some p => some (round1 (curr - p))

/-- The null-to-`0.0` coercion applied to the most recent row's metrics,
`float(last[c]) if pd.notna(last[c]) else 0.0` (app2.py lines 178-180). -/
def coalesce0 (v : Option ℚ) : ℚ :=
  match v with
  | some x => x
  | none => 0

/-- The previous-row metric extraction, `float(prev[c]) if prev is not None
and pd.notna(prev[c]) else None` (app2.py lines 182-184). -/
def prev_field (prev : Option Avaliacao) (f : Avaliacao → Option ℚ) :
    Option ℚ :=
  match prev with
  | none => none
  | some r => f r

/-- The three metric cards of the dashboard (app2.py lines 186-188). -/
structure DashMetrics where
  peso_val : ℚ
  gord_val : ℚ
  mm_val : ℚ
  peso_delta : Option ℚ
  gord_delta : Option ℚ
  mm_delta : Option ℚ
deriving DecidableEq, Repr

/-- The dashboard metric computation (app2.py lines 167-188): `none` when the
assessment history is empty (the "no assessments" message); otherwise
`last = df_av.iloc[0]`, `prev = df_av.iloc[1] if len(df_av) > 1 else None`,
null current values coerced to `0.0`, and the three `safe_delta` calls. -/
def dash_metrics (df_av : List Avaliacao) : Option DashMetrics :=
  match df_av with
  | [] => none
  | last :: rest =>
      let prev : Option Avaliacao := rest.head?
      let peso_val := coalesce0 last.peso
      let gord_val := coalesce0 last.percentual_gordura
      let mm_val := coalesce0 last.percentual_massa_magra
      some
        ⟨peso_val, gord_val, mm_val,
          safe_delta peso_val (prev_field prev Avaliacao.peso),
          safe_delta gord_val (prev_field prev Avaliacao.percentual_gordura),
          safe_delta mm_val (prev_field prev Avaliacao.percentual_massa_magra)⟩

/-- One render of `tab_dash` (app2.py lines 156-201): a pure read — it runs
only `run_query`, never `execute_statement`, so the store comes back
unchanged next to the computed view. -/
def tab_dash_render (db : DB) (uid : String) : DB × Option DashMetrics :=
  (db, dash_metrics (getAssessments db uid))

/-- Helper: `getAssessments` returns a permutation of the user's rows. -/
theorem getAssessments_perm (db : DB) (uid : String) :
    List.Perm (getAssessments db uid)
      (db.avaliacoes.filter (fun r => r.user_id == uid)) :=
  List.perm_insertionSort avDesc _

/-- Helper: `getAssessments` is sorted by date descending. -/
theorem sorted_getAssessments (db : DB) (uid : String) :
    List.Sorted avDesc (getAssessments db uid) :=
  List.sorted_insertionSort avDesc _

/-- C6: for a user_id with no profile row (the REST fetch succeeds with an
empty list), `get_user_profile` returns the synthesized default profile
`{role: student, nome: "Aluno", user_id}`; being a total function it does
not raise. -/
theorem spec_c6 (uid : String) :
    get_user_profile uid (Except.ok []) = default_profile uid ∧
    default_profile uid = ⟨"student", "Aluno", uid⟩ :=
  ⟨rfl, rfl⟩

/-- C10: any exception during the profile fetch (modelled by the `error`
outcome, covering transport failures) is absorbed: `get_user_profile`
returns the default student profile, identical to the empty-result case,
and never surfaces the error. -/
theorem spec_c10 (uid err : String) :
    get_user_profile uid (Except.error err) = default_profile uid ∧
    get_user_profile uid (Except.error err) =
      get_user_profile uid (Except.ok []) ∧
    default_profile uid = ⟨"student", "Aluno", uid⟩ :=
  ⟨rfl, rfl, rfl⟩

/-- C7: on any failed login attempt (HTTP status error or connection/timeout
error, i.e. any outcome that is not a success payload) the session auth slot
is left exactly as it was — in particular an unauthenticated session stays
unauthenticated — and `sb_login` reports `none`; the single `httpx.post`
attempt carries the bounded 10-second timeout. -/
theorem spec_c7 (auth : Option AuthCtx) (email : String)
    (outcome : HttpOutcome) (profileFetch : Except String (List Profile))
    (h : ∀ d, outcome ≠ HttpOutcome.ok d) :
    handle_login auth email outcome profileFetch = auth ∧
    handle_login none email outcome profileFetch = none ∧
    sb_login outcome = none ∧
    sb_login_timeout_seconds = 10 := by
  have hs : sb_login outcome = none := by
    cases outcome with
    | ok d => exact absurd rfl (h d)
    | httpStatusError m => rfl
    | connectionError m => rfl
  refine ⟨?_, ?_, hs, rfl⟩ <;> simp [handle_login, hs]

/-- Witness for C7 at a concrete timed-out attempt. -/
theorem spec_c7_witness :
    handle_login none ("a") (HttpOutcome.connectionError ("timeout"))
        (Except.ok []) = none ∧
    handle_login none ("a") (HttpOutcome.connectionError ("timeout"))
        (Except.ok []) = none ∧
    sb_login (HttpOutcome.connectionError ("timeout")) = none ∧
    sb_login_timeout_seconds = 10 :=
  spec_c7 none ("a") (HttpOutcome.connectionError ("timeout")) (Except.ok [])
    (fun d hd => by cases hd)

/-- C2: `safe_delta` returns the rounded difference when the previous value
is present, and the absent delta otherwise; a one-record history
(`prev = none`) and a null previous value (`f prevR = none`) produce the
identical absent result. Concretely, `safe_delta 82.3 (some 84) = some
(-1.7)` and `safe_delta 82.3 none = none`. -/
theorem spec_c2 (c p : ℚ) (f : Avaliacao → Option ℚ) (prevR : Avaliacao)
    (h : f prevR = none) :
    safe_delta c (some p) = some (round1 (c - p)) ∧
    safe_delta c (prev_field none f) = none ∧
    safe_delta c (prev_field (some prevR) f) = none ∧
    prev_field none f = prev_field (some prevR) f ∧
    safe_delta (823/10) (some 84) = some (-(17/10)) ∧
    safe_delta (823/10) none = none := by
  refine ⟨rfl, rfl, ?_, ?_, ?_, rfl⟩
  · simp [prev_field, safe_delta, h]
  · simp [prev_field, h]
  · simp only [safe_delta, Option.some.injEq]
    norm_num [round1, round_eq]

/-- Witness for C2 at a concrete null previous row. -/
theorem spec_c2_witness :
    safe_delta 1 (some 2) = some (round1 (1 - 2)) ∧
    safe_delta 1 (prev_field none Avaliacao.peso) = none ∧
    safe_delta 1
        (prev_field (some ⟨("u"), 1, none, none, none, none⟩)
          Avaliacao.peso) = none ∧
    prev_field none Avaliacao.peso =
      prev_field (some ⟨("u"), 1, none, none, none, none⟩) Avaliacao.peso ∧
    safe_delta (823/10) (some 84) = some (-(17/10)) ∧
    safe_delta (823/10) none = none :=
  spec_c2 1 2 Avaliacao.peso ⟨("u"), 1, none, none, none, none⟩ rfl

/-- C1: a non-teacher caller never reaches the student-selection path — the
selector expander is not shown — and whatever selection value is around, the
resolved target is the caller's own `user_id`, so the dashboard read, the
workout-history read and the workout insert are all scoped to the caller's
own id. -/
theorem spec_c1 (user : AuthCtx) (sel : Option String) (db : DB)
    (f : TreinoForm) (h : user.role ≠ "teacher") :
    student_selector_shown user = false ∧
    target_user_id user sel = user.user_id ∧
    dash_avaliacoes_query db user sel = getAssessments db user.user_id ∧
    treinos_history_query db user sel = getWorkouts db user.user_id 20 ∧
    form_treino_submit db user sel f =
      insertTreino db
        ⟨user.user_id, f.data, f.grupo_muscular, f.exercicio, f.series,
          f.repeticoes, f.carga_kg, f.observacoes⟩ := by
  have ht : is_teacher user = false := by
    simp [is_teacher, h]
  refine ⟨?_, ?_, ?_, ?_, ?_⟩ <;>
    simp [student_selector_shown, target_user_id, dash_avaliacoes_query,
      treinos_history_query, form_treino_submit, ht]

/-- Witness for C1: a student caller with a cross-user selection present. -/
theorem spec_c1_witness :
    student_selector_shown ⟨("t"), ("u1"), ("e"), ("student"), ("N")⟩ = false ∧
    target_user_id ⟨("t"), ("u1"), ("e"), ("student"), ("N")⟩ (some ("u2")) =
      AuthCtx.user_id ⟨("t"), ("u1"), ("e"), ("student"), ("N")⟩ ∧
    dash_avaliacoes_query ⟨[], [], []⟩
        ⟨("t"), ("u1"), ("e"), ("student"), ("N")⟩ (some ("u2")) =
      getAssessments ⟨[], [], []⟩
        (AuthCtx.user_id ⟨("t"), ("u1"), ("e"), ("student"), ("N")⟩) ∧
    treinos_history_query ⟨[], [], []⟩
        ⟨("t"), ("u1"), ("e"), ("student"), ("N")⟩ (some ("u2")) =
      getWorkouts ⟨[], [], []⟩
        (AuthCtx.user_id ⟨("t"), ("u1"), ("e"), ("student"), ("N")⟩) 20 ∧
    form_treino_submit ⟨[], [], []⟩
        ⟨("t"), ("u1"), ("e"), ("student"), ("N")⟩ (some ("u2"))
        ⟨1, ("Peito"), ("Supino"), 3, 10, 0, ("")⟩ =
      insertTreino ⟨[], [], []⟩
        ⟨AuthCtx.user_id ⟨("t"), ("u1"), ("e"), ("student"), ("N")⟩,
          1, ("Peito"), ("Supino"), 3, 10, 0, ("")⟩ :=
  spec_c1 ⟨("t"), ("u1"), ("e"), ("student"), ("N")⟩ (some ("u2"))
    ⟨[], [], []⟩ ⟨1, ("Peito"), ("Supino"), 3, 10, 0, ("")⟩ (by decide)

/-- C3: a caller with role student sees no assessment-insert form — any
interaction with the assessment tab leaves the store unchanged — while the
workout form still inserts a workout row, scoped to the caller's own id. -/
theorem spec_c3 (user : AuthCtx) (db : DB) (sel : Option String)
    (submit : Option AvalForm) (f : TreinoForm)
    (h : user.role = "student") :
    aval_form_available user = false ∧
    tab_aval_step db user sel submit = db ∧
    form_treino_submit db user sel f =
      insertTreino db
        ⟨user.user_id, f.data, f.grupo_muscular, f.exercicio, f.series,
          f.repeticoes, f.carga_kg, f.observacoes⟩ := by
  have ht : is_teacher user = false := by
    simp [is_teacher, h]
  refine ⟨?_, ?_, ?_⟩ <;>
    simp [aval_form_available, tab_aval_step, form_treino_submit,
      target_user_id, ht]

/-- Witness for C3: a student submitting an assessment form changes nothing;
a workout submission appends the student's own row. -/
theorem spec_c3_witness :
    aval_form_available ⟨("t"), ("u1"), ("e"), ("student"), ("N")⟩ = false ∧
    tab_aval_step ⟨[], [], []⟩ ⟨("t"), ("u1"), ("e"), ("student"), ("N")⟩
        (some ("u2")) (some ⟨1, 80, 2, 20, 60⟩) = ⟨[], [], []⟩ ∧
    form_treino_submit ⟨[], [], []⟩
        ⟨("t"), ("u1"), ("e"), ("student"), ("N")⟩ (some ("u2"))
        ⟨1, ("Costas"), ("Remada"), 3, 10, 40, ("")⟩ =
      insertTreino ⟨[], [], []⟩
        ⟨AuthCtx.user_id ⟨("t"), ("u1"), ("e"), ("student"), ("N")⟩,
          1, ("Costas"), ("Remada"), 3, 10, 40, ("")⟩ :=
  spec_c3 ⟨("t"), ("u1"), ("e"), ("student"), ("N")⟩ ⟨[], [], []⟩
    (some ("u2")) (some ⟨1, 80, 2, 20, 60⟩)
    ⟨1, ("Costas"), ("Remada"), 3, 10, 40, ("")⟩ rfl

/-- C4 fails as stated: inserting an assessment whose date is older than an
existing one does not put it first in the date-descending listing. Here the
store already holds an assessment dated 2 for user u; inserting one dated 1
lists the dated-2 row first, not the inserted record. -/
theorem spec_c4_counterexample :
    (getAssessments
        (insertAvaliacao ⟨[], [⟨("u"), 2, some 71, none, none, none⟩], []⟩
          ⟨("u"), 1, some 70, none, none, none⟩) ("u")).head? ≠
      some ⟨("u"), 1, some 70, none, none, none⟩ := by
  decide

/-- C4 (amended): when the inserted assessment's date is strictly newer than
every assessment already stored for that user, the immediate listing starts
with exactly the inserted record, and the listing is ordered by date
descending (the ordering holds unconditionally). -/
theorem spec_c4 (db : DB) (a : Avaliacao)
    (h : ∀ r ∈ db.avaliacoes, r.user_id = a.user_id → r.data < a.data) :
    (getAssessments (insertAvaliacao db a) a.user_id).head? = some a ∧
    List.Sorted avDesc (getAssessments (insertAvaliacao db a) a.user_id) := by
  refine ⟨?_, sorted_getAssessments _ _⟩
  have hperm : List.Perm (getAssessments (insertAvaliacao db a) a.user_id)
      ((db.avaliacoes ++ [a]).filter (fun r => r.user_id == a.user_id)) :=
    getAssessments_perm _ _
  have hsorted : List.Sorted avDesc
      (getAssessments (insertAvaliacao db a) a.user_id) :=
    sorted_getAssessments _ _
  have hmem_a : a ∈ getAssessments (insertAvaliacao db a) a.user_id := by
    rw [hperm.mem_iff, List.mem_filter]
    simp
  cases hl : getAssessments (insertAvaliacao db a) a.user_id with
  | nil =>
      rw [hl] at hmem_a
      cases hmem_a
  | cons b t =>
      rw [hl] at hperm hsorted hmem_a
      have hb : b ∈ (db.avaliacoes ++ [a]).filter
          (fun r => r.user_id == a.user_id) :=
        hperm.mem_iff.mp (List.mem_cons_self _ _)
      rw [List.mem_filter] at hb
      obtain ⟨hbmem, hbuid⟩ := hb
      rw [List.mem_append] at hbmem
      simp only [List.head?_cons, Option.some.injEq]
      rcases hbmem with hbdb | hba
      · have hlt : b.data < a.data := h b hbdb (by simpa using hbuid)
        rcases List.mem_cons.mp hmem_a with hab | hat
        · exact hab.symm
        · have hba2 : avDesc b a := List.rel_of_sorted_cons hsorted a hat
          simp only [avDesc] at hba2
          omega
      · simpa using hba

/-- Witness for C4 at a concrete store holding one strictly older record. -/
theorem spec_c4_witness :
    (getAssessments
        (insertAvaliacao ⟨[], [⟨("u"), 1, some 70, none, none, none⟩], []⟩
          ⟨("u"), 2, some 71, none, none, none⟩)
        (Avaliacao.user_id ⟨("u"), 2, some 71, none, none, none⟩)).head? =
      some ⟨("u"), 2, some 71, none, none, none⟩ ∧
    List.Sorted avDesc
      (getAssessments
        (insertAvaliacao ⟨[], [⟨("u"), 1, some 70, none, none, none⟩], []⟩
          ⟨("u"), 2, some 71, none, none, none⟩)
        (Avaliacao.user_id ⟨("u"), 2, some 71, none, none, none⟩)) :=
  spec_c4 ⟨[], [⟨("u"), 1, some 70, none, none, none⟩], []⟩
    ⟨("u"), 2, some 71, none, none, none⟩ (by decide)

/-- C5: the workout-history read is capped by its limit — in particular at
most 50 rows come back with limit 50, whatever the store holds — and is
ordered by date descending; the tab's call site instantiates the query at
the configured limit 20, so it also never exceeds 50 rows. -/
theorem spec_c5 (db : DB) (uid : String) (limit : Nat) (user : AuthCtx)
    (sel : Option String) :
    (getWorkouts db uid limit).length ≤ limit ∧
    (getWorkouts db uid 50).length ≤ 50 ∧
    List.Sorted trDesc (getWorkouts db uid limit) ∧
    treinos_history_query db user sel =
      getWorkouts db (target_user_id user sel) 20 ∧
    (treinos_history_query db user sel).length ≤ 20 ∧
    (treinos_history_query db user sel).length ≤ 50 := by
  have hlen : ∀ (u : String) (n : Nat), (getWorkouts db u n).length ≤ n := by
    intro u n
    simp only [getWorkouts, List.length_take]
    exact min_le_left _ _
  have hcap : (treinos_history_query db user sel).length ≤ 20 :=
    hlen (target_user_id user sel) 20
  refine ⟨hlen uid limit, hlen uid 50, ?_, rfl, hcap, le_trans hcap (by omega)⟩
  exact (List.sorted_insertionSort trDesc _).sublist (List.take_sublist _ _)

/-- C8: rendering the dashboard leaves the store untouched — a re-read still
returns the stored row, null fields included — while each null metric of the
most recent row is displayed as 0.0 (`coalesce0`). The zero is a display
value only; the persisted row keeps its null. -/
theorem spec_c8 (db : DB) (uid : String) (last : Avaliacao)
    (rest : List Avaliacao)
    (h : getAssessments db uid = last :: rest) :
    (tab_dash_render db uid).1 = db ∧
    (getAssessments (tab_dash_render db uid).1 uid).head? = some last ∧
    (last.peso = none →
      Option.map DashMetrics.peso_val (tab_dash_render db uid).2 = some 0) ∧
    (last.percentual_gordura = none →
      Option.map DashMetrics.gord_val (tab_dash_render db uid).2 = some 0) ∧
    (last.percentual_massa_magra = none →
      Option.map DashMetrics.mm_val (tab_dash_render db uid).2 = some 0) := by
  refine ⟨rfl, ?_, ?_, ?_, ?_⟩
  · show (getAssessments db uid).head? = some last
    rw [h]
    rfl
  all_goals
    intro hnull
    simp [tab_dash_render, h, dash_metrics, coalesce0, hnull]

/-- Witness for C8 at a store whose only assessment row has all three
metrics null. -/
theorem spec_c8_witness :
    (tab_dash_render ⟨[], [⟨("u"), 1, none, some 1, none, none⟩], []⟩
        ("u")).1 = ⟨[], [⟨("u"), 1, none, some 1, none, none⟩], []⟩ ∧
    (getAssessments
        (tab_dash_render ⟨[], [⟨("u"), 1, none, some 1, none, none⟩], []⟩
          ("u")).1 ("u")).head? = some ⟨("u"), 1, none, some 1, none, none⟩ ∧
    (Avaliacao.peso ⟨("u"), 1, none, some 1, none, none⟩ = none →
      Option.map DashMetrics.peso_val
        (tab_dash_render ⟨[], [⟨("u"), 1, none, some 1, none, none⟩], []⟩
          ("u")).2 = some 0) ∧
    (Avaliacao.percentual_gordura ⟨("u"), 1, none, some 1, none, none⟩ = none →
      Option.map DashMetrics.gord_val
        (tab_dash_render ⟨[], [⟨("u"), 1, none, some 1, none, none⟩], []⟩
          ("u")).2 = some 0) ∧
    (Avaliacao.percentual_massa_magra ⟨("u"), 1, none, some 1, none, none⟩ =
        none →
      Option.map DashMetrics.mm_val
        (tab_dash_render ⟨[], [⟨("u"), 1, none, some 1, none, none⟩], []⟩
          ("u")).2 = some 0) :=
  spec_c8 ⟨[], [⟨("u"), 1, none, some 1, none, none⟩], []⟩ ("u")
    ⟨("u"), 1, none, some 1, none, none⟩ [] (by decide)

/-- C9: when the most recent assessment's value for a metric is null but the
previous one's is not, the displayed delta is not absent: the null current
value is coerced to 0.0 first, so the card shows `0 - previous` (rounded),
for weight, body-fat percentage and lean-mass percentage alike. -/
theorem spec_c9 (db : DB) (uid : String) (last prevR : Avaliacao)
    (rest : List Avaliacao) (p g m : ℚ)
    (h : getAssessments db uid = last :: prevR :: rest)
    (hp : last.peso = none) (hp2 : prevR.peso = some p)
    (hg : last.percentual_gordura = none)
    (hg2 : prevR.percentual_gordura = some g)
    (hm : last.percentual_massa_magra = none)
    (hm2 : prevR.percentual_massa_magra = some m) :
    Option.map DashMetrics.peso_delta (tab_dash_render db uid).2 =
      some (some (round1 (0 - p))) ∧
    Option.map DashMetrics.gord_delta (tab_dash_render db uid).2 =
      some (some (round1 (0 - g))) ∧
    Option.map DashMetrics.mm_delta (tab_dash_render db uid).2 =
      some (some (round1 (0 - m))) := by
  refine ⟨?_, ?_, ?_⟩ <;>
    simp [tab_dash_render, h, dash_metrics, coalesce0, prev_field,
      safe_delta, hp, hp2, hg, hg2, hm, hm2]

/-- Witness for C9 at a two-record history whose latest row is all-null. -/
theorem spec_c9_witness :
    Option.map DashMetrics.peso_delta
        (tab_dash_render
          ⟨[], [⟨("u"), 1, some 80, some 1, some 20, some 60⟩,
            ⟨("u"), 2, none, none, none, none⟩], []⟩ ("u")).2 =
      some (some (round1 (0 - 80))) ∧
    Option.map DashMetrics.gord_delta
        (tab_dash_render
          ⟨[], [⟨("u"), 1, some 80, some 1, some 20, some 60⟩,
            ⟨("u"), 2, none, none, none, none⟩], []⟩ ("u")).2 =
      some (some (round1 (0 - 20))) ∧
    Option.map DashMetrics.mm_delta
        (tab_dash_render
          ⟨[], [⟨("u"), 1, some 80, some 1, some 20, some 60⟩,
            ⟨("u"), 2, none, none, none, none⟩], []⟩ ("u")).2 =
      some (some (round1 (0 - 60))) :=
  spec_c9
    ⟨[], [⟨("u"), 1, some 80, some 1, some 20, some 60⟩,
      ⟨("u"), 2, none, none, none, none⟩], []⟩ ("u")
    ⟨("u"), 2, none, none, none, none⟩
    ⟨("u"), 1, some 80, some 1, some 20, some 60⟩ [] 80 20 60
    (by decide) rfl rfl rfl rfl rfl rfl
